import Mathlib

/-!
Verification of the cursor-position sharing engine in `src/content.js` of
ably-labs/cursors-everywhere.  The content script is shallowly embedded:
the `mousemove` capture handler, the 100 ms `setInterval` flush, the
`setCursorCommunication` toggle handler, the presence `update` replay
handler, the presence `leave` handler, and `fetchPresenceSet` each become
an executable Lean function on an explicit state.  The single-threaded
event loop of the tab is modelled as a trace of events folded through a
step function.
-/

namespace ContentJs

/-- A DOM element as seen by the capture side of `content.js`: the result of
`document.elementFromPoint`, with the fields the handler reads
(`className`, `id`, `getBoundingClientRect().left/.top`).  Coordinates are
integers (pixel positions). -/
structure DomElement where
  className : String
  id : String
  rectLeft : Int
  rectTop : Int
deriving DecidableEq, Repr

/-- The fields of a `mousemove` event that the handler reads. -/
structure MouseEvent where
  clientX : Int
  clientY : Int
  pageX : Int
  pageY : Int
deriving DecidableEq, Repr

/-- One captured cursor position, exactly the object pushed onto `positions`
in the `mousemove` handler:
`{x, y, xElement, yElement, time: now - baseTime, element: elementClassAndID}`.
`time` is the offset in ms from the batch base; `element` is the selector
string (empty when the hit element had neither class nor id — the `None`
anchor). -/
structure Sample where
  x : Int
  y : Int
  xElement : Int
  yElement : Int
  time : Nat
  element : String
deriving DecidableEq, Repr

/-- `replaceAll` of a single character by a character sequence, the
character-level meaning of JavaScript `String.prototype.replaceAll` with a
one-character pattern. -/
def replaceAllChar (pat : Char) (rep : List Char) : List Char → List Char
  | [] => []
  | c :: cs => (if c = pat then rep else [c]) ++ replaceAllChar pat rep cs

/-- The selector string built by the `mousemove` handler (content.js 28-31):
start with the empty string; if `element.className` is truthy prepend a dot
and the class list; `replaceAll(' ', '.')` then `replaceAll(':', '\\:')`;
if `element.id` is truthy append a space, a hash and the id (the id part is
appended after the escaping, so it is not escaped). -/
def selectorOf (el : DomElement) : String :=
  let s0 : String := if el.className ≠ ("") then ⟨'.' :: el.className.data⟩ else ("")
  let s1 : String := ⟨replaceAllChar ':' ['\\', ':'] (replaceAllChar ' ' ['.'] s0.data)⟩
  if el.id ≠ ("") then ⟨s1.data ++ (' ' :: '#' :: el.id.data)⟩ else s1

/-- JavaScript `if (!baseTime) baseTime = now;` — `baseTime` is kept unless
it is unset (`undefined`/`null`, modelled as `none`) or `0` (falsy). -/
def jsBaseTime (baseTime : Option Nat) (now : Nat) : Nat :=
  match baseTime with
  | none => now
  | some 0 => now
  | some b => b

/-- The sample the `mousemove` handler pushes for hit element `el`, event
`e`, batch base `base` and current time `now`. -/
def mkSample (el : DomElement) (e : MouseEvent) (base now : Nat) : Sample :=
  { x := e.pageX
    y := e.pageY
    xElement := e.pageX - el.rectLeft
    yElement := e.pageY - el.rectTop
    time := now - base
    element := selectorOf el }

/-- The error the `mousemove` handler raises when `document.elementFromPoint`
returned `null` and the handler reads `null.className` (content.js line 29,
which has no null check). -/
def nullElementError : String := "TypeError: cannot read className of null"

/-- The `mousemove` handler (content.js 24-49) for one event.  `hit` is the
result of `document.elementFromPoint` (`none` when no element is at the
viewport point).  Returns `Except.error` when the handler throws, otherwise
the pushed sample and the (possibly newly set) base time; `ok none` when
disabled (nothing captured). -/
def mousemoveHandler (enabled : Bool) (hit : Option DomElement) (e : MouseEvent)
    (baseTime : Option Nat) (now : Nat) : Except String (Option (Sample × Nat)) :=
  if enabled then
    match hit with
    | none => Except.error nullElementError
    | some el =>
      let base := jsBaseTime baseTime now
      Except.ok (some (mkSample el e base now, base))
  else Except.ok none

/-- The sender-side module state of `content.js`: the
`cursorCommunicationEnabled` flag, the `positions` accumulator and
`baseTime`. -/
structure SenderState where
  enabled : Bool
  positions : List Sample
  baseTime : Option Nat
deriving DecidableEq, Repr

/-- The module-initialisation state: disabled, empty accumulator, unset
base time. -/
def initSender : SenderState := { enabled := false, positions := [], baseTime := none }

/-- The events the sender side reacts to: a `mousemove` (with the element
under the point and the `performance.now()` value), a firing of the 100 ms
`setInterval`, and a `setCursorCommunication` message from the popup. -/
inductive SenderEvent where
  | move (hit : Option DomElement) (e : MouseEvent) (now : Nat)
  | tick
  | toggle
deriving DecidableEq, Repr

/-- One step of the sender side.  Returns the new state and the list of
batches published by this step (each batch is the sample list passed to
`channel.presence.update`).
* `move`: run the `mousemove` handler; a thrown exception leaves the state
  unchanged (the browser swallows listener exceptions).
* `tick`: the `setInterval` body — if enabled and `positions` nonempty,
  publish the whole accumulator and reset it and `baseTime`.
* `toggle`: `cursorCommunicationEnabled = !cursorCommunicationEnabled`;
  note the handler does NOT touch `positions` or `baseTime`. -/
def senderStep (s : SenderState) : SenderEvent → SenderState × List (List Sample)
  | .move hit e now =>
    match mousemoveHandler s.enabled hit e s.baseTime now with
    | .ok (some pr) =>
      ({ s with positions := s.positions ++ [pr.1], baseTime := some pr.2 }, [])
    | _ => (s, [])
  | .tick =>
    match s.enabled, s.positions with
    | true, p :: ps => ({ s with positions := [], baseTime := none }, [p :: ps])
    | _, _ => (s, [])
  | .toggle => ({ s with enabled := !s.enabled }, [])

/-- Fold a trace of events through `senderStep`, collecting every published
batch in order. -/
def senderRun : SenderState → List SenderEvent → SenderState × List (List Sample)
  | s, [] => (s, [])
  | s, ev :: rest =>
    let p := senderStep s ev
    let q := senderRun p.1 rest
    (q.1, p.2 ++ q.2)

/-- The samples captured (pushed onto `positions`) by one event. -/
def capturedStep (s : SenderState) : SenderEvent → List Sample
  | .move hit e now =>
    match mousemoveHandler s.enabled hit e s.baseTime now with
    | .ok (some pr) => [pr.1]
    | _ => []
  | _ => []

/-- The samples captured over a whole trace, in capture order. -/
def capturedRun : SenderState → List SenderEvent → List Sample
  | _, [] => []
  | s, ev :: rest => capturedStep s ev ++ capturedRun (senderStep s ev).1 rest

/-- A bounding-client rect as read at playback time (`rect.left`,
`rect.top`). -/
structure Rect where
  left : Int
  top : Int
deriving DecidableEq, Repr

/-- The position assigned to the remote cursor by the `setTimeout` callback
of the presence `update` handler (content.js 94-115), given the local
document's `querySelectorAll` (modelled as the function `q` from selector
strings to the rects of the matched elements) and the replayed sample.
The code queries only when `position.element` is truthy (nonempty), uses
the matched element only when `elements.length == 1`, and otherwise falls
back to the absolute page coordinates `position.x`,`position.y`.  (For a
matched DOM element `typeof element.getBoundingClientRect === 'function'`
always holds, so that guard is always taken.)  This definition covers the
executions in which the query returns normally; `querySelectorAll` can
also throw on an invalid selector, which `playbackUpdate` below models
(`playbackUpdate_ok_agrees` relates the two). -/
def playbackPosition (q : String → List Rect) (p : Sample) : Int × Int :=
  let elements : Option (List Rect) :=
    if p.element ≠ ("") then some (q p.element) else none
  let element : Option Rect :=
    match elements with
    | some [r] => some r
    | _ => none
  match element with
  | some r => (r.left + p.xElement, r.top + p.yElement)
  | none => (p.x, p.y)

/-- The error `document.querySelectorAll` raises when its argument is not a
syntactically valid selector (the DOM API throws a `SyntaxError` instead of
returning an empty list). -/
def selectorSyntaxError : String := "SyntaxError: not a valid selector"

/-- The `setTimeout` callback of the presence `update` handler
(content.js 94-115) with the fallible `document.querySelectorAll`: `q`
returns the rects of the matched elements or raises (`Except.error`) as the
DOM API does on a syntactically invalid selector — which this extension's
own capture side can produce, e.g. `.a..b` from a class list with
consecutive spaces or `.w-1/2` from a utility-CSS class name.  When the
query raises, the callback aborts before either `style.left`/`style.top`
assignment: no position is set.  `playbackPosition` above is this function
restricted to executions where the query returns normally
(`playbackUpdate_ok_agrees`). -/
def playbackUpdate (q : String → Except String (List Rect)) (p : Sample) :
    Except String (Int × Int) :=
  if p.element ≠ ("") then
    match q p.element with
    | Except.error err => Except.error err
    | Except.ok l =>
      match l with
      | [r] => Except.ok (r.left + p.xElement, r.top + p.yElement)
      | _ => Except.ok (p.x, p.y)
  else Except.ok (p.x, p.y)

/-- A presence message as seen by the receiver: the sender's `clientId` and
its `data` (`data.positions` is absent — `none` — for a plain
`presence.enter({color})`, and present for a `presence.update`). -/
structure PresenceMsg where
  clientId : String
  positions : Option (List Sample)
  color : String
deriving DecidableEq, Repr

/-- A deferred visual update scheduled with `setTimeout(…, position.time)`:
it fires at local receipt time plus the sample's time offset and replays
that sample. -/
structure ScheduledUpdate where
  clientId : String
  fireAt : Nat
  sample : Sample
deriving DecidableEq, Repr

/-- The presence `update` handler (content.js 65-118).  `cursors` is the set
of tracked remote cursors (keyed by clientId; we record the keys).  When
enabled: create a cursor for an unseen clientId, then, unless
`data.positions` is falsy, schedule one deferred update per sample via
`setTimeout(…, position.time)` — i.e. at `receiptTime + position.time` —
in sample order.  When disabled the handler does nothing. -/
def handleUpdate (enabled : Bool) (cursors : List String) (msg : PresenceMsg)
    (receiptTime : Nat) : List String × List ScheduledUpdate :=
  if enabled then
    let cursors1 := if msg.clientId ∈ cursors then cursors else cursors ++ [msg.clientId]
    match msg.positions with
    | none => (cursors1, [])
    | some ps =>
      (cursors1, ps.map (fun p => { clientId := msg.clientId, fireAt := receiptTime + p.time, sample := p }))
  else (cursors, [])

/-- The loop body of `fetchPresenceSet` (content.js 146-181), processing the
fetched presence set in order.  For each member: create a cursor if not yet
tracked; then `if (!data.positions) return;` — the `return` exits the WHOLE
callback, so the remaining members of the set are not processed at all.
Members with positions get one deferred update per sample at
`receiptTime + position.time` (this replay path uses the absolute
`position.x/y` only). -/
def fetchPresenceSet : List String → Nat → List PresenceMsg → List String × List ScheduledUpdate
  | cursors, _, [] => (cursors, [])
  | cursors, t, msg :: rest =>
    let cursors1 := if msg.clientId ∈ cursors then cursors else cursors ++ [msg.clientId]
    match msg.positions with
    | none => (cursors1, [])
    | some ps =>
      let sch := ps.map (fun p => { clientId := msg.clientId, fireAt := t + p.time, sample := p })
      let rec1 := fetchPresenceSet cursors1 t rest
      (rec1.1, sch ++ rec1.2)

/-- The presence `leave` handler (content.js 122-128): if a cursor is
tracked for the departing clientId, remove it; otherwise do nothing.  It is
not gated on the enabled flag. -/
def handleLeave (cursors : List String) (clientId : String) : List String :=
  if clientId ∈ cursors then cursors.erase clientId else cursors

/-- The receiver-visible session state: the enabled flag and the tracked
remote cursors. -/
structure ClientState where
  enabled : Bool
  cursors : List String
deriving DecidableEq, Repr

/-- The `setCursorCommunication` message handler (content.js 196-208): flip
`cursorCommunicationEnabled`; if now enabled, run `fetchPresenceSet` (over
the current presence set `pset`, fetched at time `t`) and enter presence;
if now disabled, `clearCursors()` (destroy every tracked cursor) and leave
presence. -/
def handleToggle (pset : List PresenceMsg) (t : Nat) (s : ClientState) : ClientState :=
  if s.enabled then { enabled := false, cursors := [] }
  else { enabled := true, cursors := (fetchPresenceSet s.cursors t pset).1 }

/-! Concrete inputs used by the theorems below. -/

/-- The first sample of the end-to-end scenario: offset 0 ms, page (10,10),
no anchor (empty selector). -/
def sampleA1 : Sample := { x := 10, y := 10, xElement := 0, yElement := 0, time := 0, element := ("") }

/-- The second sample of the end-to-end scenario: offset 50 ms, page
(20,15), no anchor. -/
def sampleA2 : Sample := { x := 20, y := 15, xElement := 0, yElement := 0, time := 50, element := ("") }

/-- A document in which no selector matches anything. -/
def qEmpty : String → List Rect := fun _ => []

/-- A document in which the selector .box matches exactly one element whose
rect is at (10,20). -/
def qOne : String → List Rect := fun s => if s = (".box") then [{ left := 10, top := 20 }] else []

/-- A document in which the selector .dup matches two elements. -/
def qTwo : String → List Rect :=
  fun s => if s = (".dup") then [{ left := 1, top := 1 }, { left := 2, top := 2 }] else []

/-- A sample anchored to the selector .box with element offsets (3,4). -/
def pAnchored : Sample := { x := 1, y := 2, xElement := 3, yElement := 4, time := 0, element := (".box") }

/-- A sample anchored to the ambiguous selector .dup. -/
def pDup : Sample := { x := 40, y := 41, xElement := 5, yElement := 6, time := 0, element := (".dup") }

/-- A concrete element under the pointer: class list with a space, an id,
rect at (3,4). -/
def elA : DomElement := { className := ("box big"), id := ("b1"), rectLeft := 3, rectTop := 4 }

/-- An element with a utility-CSS class name containing a slash: the capture
side turns it into the selector .w-1/2, which is not a syntactically valid
CSS selector (the slash is unescaped), so `querySelectorAll` throws on it. -/
def elTw : DomElement := { className := ("w-1/2"), id := (""), rectLeft := 0, rectTop := 0 }

/-- An element whose class attribute contains consecutive spaces: the
capture side turns it into the selector .a..b, which has an empty class
name between the dots and is likewise invalid. -/
def elSpaces : DomElement := { className := ("a  b"), id := (""), rectLeft := 0, rectTop := 0 }

/-- A document whose `querySelectorAll` raises `SyntaxError` on the two
invalid selectors above (as the DOM API does) and matches nothing else. -/
def qStrict : String → Except String (List Rect) :=
  fun s =>
    if s = (".w-1/2") ∨ s = (".a..b") then Except.error selectorSyntaxError
    else Except.ok []

/-- A document whose `querySelectorAll` returns normally everywhere and
matches exactly one element, with rect (10,20), for the selector .box. -/
def qOkBox : String → Except String (List Rect) :=
  fun s => if s = (".box") then Except.ok [{ left := 10, top := 20 }] else Except.ok []

/-- A concrete mouse event at page position (1,1). -/
def mev1 : MouseEvent := { clientX := 1, clientY := 1, pageX := 1, pageY := 1 }

/-- A concrete mouse event at page position (2,2). -/
def mev2 : MouseEvent := { clientX := 2, clientY := 2, pageX := 2, pageY := 2 }

/-- A concrete mouse event at page position (3,3). -/
def mev3 : MouseEvent := { clientX := 3, clientY := 3, pageX := 3, pageY := 3 }

/-- Trace: enable, then three pointer moves, with no interval tick. -/
def evThreeMoves : List SenderEvent :=
  [SenderEvent.toggle,
   SenderEvent.move (some elA) mev1 10,
   SenderEvent.move (some elA) mev2 20,
   SenderEvent.move (some elA) mev3 30]

/-- Trace: enable, capture one sample, disable mid-window, re-enable, tick. -/
def evDisableReenable : List SenderEvent :=
  [SenderEvent.toggle,
   SenderEvent.move (some elA) mev1 10,
   SenderEvent.toggle, SenderEvent.toggle, SenderEvent.tick]

/-- Trace: enable, capture one sample, disable mid-window (nothing after). -/
def evDisableOnly : List SenderEvent :=
  [SenderEvent.toggle, SenderEvent.move (some elA) mev1 10, SenderEvent.toggle]

/-- A buffered-while-disabled sender state: disabled with one accumulated
sample. -/
def sDisabled : SenderState := { enabled := false, positions := [sampleA1], baseTime := some 10 }

/-- A batch message from participant A whose content was captured later
(the fresher batch). -/
def msgFresh : PresenceMsg := { clientId := ("A"), positions := some [sampleA2], color := ("#F00") }

/-- A batch message from participant A whose content was captured earlier
(the out-of-order batch arriving second). -/
def msgStale : PresenceMsg := { clientId := ("A"), positions := some [sampleA1], color := ("#F00") }

/-- A presence snapshot with two members, neither of which has sent a batch
yet (their presence data has no positions). -/
def psetTwoIdle : List PresenceMsg :=
  [{ clientId := ("P1"), positions := none, color := ("#ABC") },
   { clientId := ("P2"), positions := none, color := ("#DEF") }]

/-! Helper lemmas. -/

/-- Per-step sample conservation: the samples a step publishes plus the
samples left in the accumulator are the previous accumulator plus the
samples the step captured. -/
theorem senderStep_conserves (s : SenderState) (ev : SenderEvent) :
    ((senderStep s ev).2).flatten ++ (senderStep s ev).1.positions =
      s.positions ++ capturedStep s ev := by
  cases ev with
  | move hit e now =>
    cases h : mousemoveHandler s.enabled hit e s.baseTime now with
    | error err => simp [senderStep, capturedStep, h]
    | ok o =>
      cases o with
      | none => simp [senderStep, capturedStep, h]
      | some pr => simp [senderStep, capturedStep, h]
  | tick =>
    cases h1 : s.enabled <;> cases h2 : s.positions <;>
      simp [senderStep, capturedStep, h1, h2]
  | toggle => simp [senderStep, capturedStep]

/-- A step on an event other than the interval tick publishes nothing. -/
theorem senderStep_no_emit (s : SenderState) (ev : SenderEvent)
    (h : ev ≠ SenderEvent.tick) : (senderStep s ev).2 = [] := by
  cases ev with
  | move hit e now =>
    cases hm : mousemoveHandler s.enabled hit e s.baseTime now with
    | error err => simp [senderStep, hm]
    | ok o =>
      cases o with
      | none => simp [senderStep, hm]
      | some pr => simp [senderStep, hm]
  | tick => exact absurd rfl h
  | toggle => simp [senderStep]

/-- On a document whose query never throws, the fallible callback model
agrees with `playbackPosition`: `playbackPosition` is exactly the
normal-return restriction of `playbackUpdate`. -/
theorem playbackUpdate_ok_agrees (q : String → List Rect) (p : Sample) :
    playbackUpdate (fun s => Except.ok (q s)) p = Except.ok (playbackPosition q p) := by
  by_cases h : p.element = ("")
  · simp [playbackUpdate, playbackPosition, h]
  · rcases hq : q p.element with _ | ⟨r1, _ | ⟨r2, rs⟩⟩ <;>
      simp [playbackUpdate, playbackPosition, h, hq]

/-! Theorems for the specification claims. -/

/-- Claim C1 (confirmed): for every received batch (while enabled), the
update handler schedules one deferred visual update per sample, in sample
order, at local receipt time plus that sample's time offset; in the
two-sample end-to-end scenario received at local time 2000 the updates are
scheduled at 2000 and 2050 and position the cursor at the page coordinates
(10,10) then (20,15). -/
theorem replay_schedules_per_sample :
    (∀ (cursors : List String) (cid col : String) (ps : List Sample) (t : Nat),
      (handleUpdate true cursors { clientId := cid, positions := some ps, color := col } t).2 =
        ps.map (fun p => { clientId := cid, fireAt := t + p.time, sample := p })) ∧
    ((handleUpdate true []
        { clientId := ("A"), positions := some [sampleA1, sampleA2], color := ("#F00") } 2000).2 =
      [{ clientId := ("A"), fireAt := 2000, sample := sampleA1 },
       { clientId := ("A"), fireAt := 2050, sample := sampleA2 }] ∧
     playbackPosition qEmpty sampleA1 = (10, 10) ∧
     playbackPosition qEmpty sampleA2 = (20, 15)) := by
  refine ⟨?_, by decide, by decide, by decide⟩
  intro cursors cid col ps t
  simp [handleUpdate]

/-- Witness for C1: `replay_schedules_per_sample` instantiated at a concrete
one-sample batch received at local time 1000. -/
theorem replay_schedules_per_sample_witness :
    (handleUpdate true []
        { clientId := ("A"), positions := some [sampleA1], color := ("#F00") } 1000).2 =
      [{ clientId := ("A"), fireAt := 1000, sample := sampleA1 }] := by
  have h := replay_schedules_per_sample.1 [] ("A") ("#F00") [sampleA1] 1000
  simpa using h

/-- Counterexample for C2: a sample produced by this program's own capture
side on an element with the class name w-1/2 carries the selector .w-1/2,
which is not a valid CSS selector (and a class attribute with consecutive
spaces yields the likewise invalid .a..b); on such a sample
`querySelectorAll` throws `SyntaxError` and the playback callback aborts
before either style assignment — the cursor position is left unset, not
placed at the page fallback, so the always-defined guarantee fails. -/
theorem playback_throws_on_invalid_selector_cex :
    selectorOf elTw = (".w-1/2") ∧
    selectorOf elSpaces = (".a..b") ∧
    playbackUpdate qStrict (mkSample elTw mev1 10 10) =
      Except.error selectorSyntaxError := by
  refine ⟨by decide, by decide, by rfl⟩

/-- Amended C2: on a replayed sample whose selector query returns normally,
the cursor position is always defined — anchor absence or an empty match
list yields exactly the page fallback and a unique match yields the
element-relative position — but when the stored selector makes the query
throw (a syntactically invalid selector, which the capture side itself can
produce), the callback exits before assigning any position and the cursor
is left unset. -/
theorem playback_defined_unless_query_throws
    (q : String → Except String (List Rect)) (p : Sample) :
    (p.element = ("") → playbackUpdate q p = Except.ok (p.x, p.y)) ∧
    (p.element ≠ ("") → q p.element = Except.ok [] →
      playbackUpdate q p = Except.ok (p.x, p.y)) ∧
    (∀ r, p.element ≠ ("") → q p.element = Except.ok [r] →
      playbackUpdate q p = Except.ok (r.left + p.xElement, r.top + p.yElement)) ∧
    (∀ err, p.element ≠ ("") → q p.element = Except.error err →
      playbackUpdate q p = Except.error err) := by
  refine ⟨fun h => ?_, fun h hq => ?_, fun r h hq => ?_, fun err h hq => ?_⟩
  · simp [playbackUpdate, h]
  · simp [playbackUpdate, h, hq]
  · simp [playbackUpdate, h, hq]
  · simp [playbackUpdate, h, hq]

/-- Witness for C2's amended theorem: an anchorless sample and a uniquely
matched sample get their defined positions, while the capture-produced
invalid selector makes the callback abort with the query's error. -/
theorem playback_defined_unless_query_throws_witness :
    playbackUpdate qStrict sampleA1 = Except.ok (10, 10) ∧
    playbackUpdate qOkBox pAnchored = Except.ok (13, 24) ∧
    playbackUpdate qStrict (mkSample elTw mev1 10 10) =
      Except.error selectorSyntaxError :=
  ⟨(playback_defined_unless_query_throws qStrict sampleA1).1 (by decide),
   (playback_defined_unless_query_throws qOkBox pAnchored).2.2.1
     { left := 10, top := 20 } (by decide) (by rfl),
   (playback_defined_unless_query_throws qStrict (mkSample elTw mev1 10 10)).2.2.2
     selectorSyntaxError (by decide) (by rfl)⟩

/-- Claim C3 (confirmed): sample conservation — over any event trace, the
samples published across all emitted batches followed by the samples still
in the accumulator are exactly the initial accumulator followed by every
captured sample, in order; so each captured sample ends up in exactly one
emitted batch or is still buffered, and none is silently dropped. -/
theorem captured_samples_conserved (s : SenderState) (evs : List SenderEvent) :
    ((senderRun s evs).2).flatten ++ (senderRun s evs).1.positions =
      s.positions ++ capturedRun s evs := by
  induction evs generalizing s with
  | nil => simp [senderRun, capturedRun]
  | cons ev rest ih =>
    have hstep := senderStep_conserves s ev
    simp only [senderRun, capturedRun, List.flatten_append, List.append_assoc]
    rw [ih (senderStep s ev).1]
    rw [← List.append_assoc, hstep, List.append_assoc]

/-- Witness for C3: `captured_samples_conserved` on the concrete three-move
trace — the (empty) emitted output plus the accumulator equals the three
captured samples. -/
theorem captured_samples_conserved_witness :
    ((senderRun initSender evThreeMoves).2).flatten ++ (senderRun initSender evThreeMoves).1.positions =
      [mkSample elA mev1 10 10, mkSample elA mev2 10 20, mkSample elA mev3 10 30] := by
  have h := captured_samples_conserved initSender evThreeMoves
  rw [h]
  decide

/-- Counterexample for C4: with the trace enable → capture one sample →
disable → re-enable → tick, the sample buffered at the moment of disable IS
transmitted after the re-enable (first conjunct), although nothing had been
transmitted up to the disable (second conjunct).  This contradicts the
claim that the in-flight partial batch is discarded on disable and never
transmitted, including after a later re-enable. -/
theorem disable_retains_inflight_batch_cex :
    (senderRun initSender evDisableReenable).2 = [[mkSample elA mev1 10 10]] ∧
    (senderRun initSender evDisableOnly).2 = [] ∧
    (senderRun initSender evDisableOnly).1.positions = [mkSample elA mev1 10 10] := by
  decide

/-- Amended C4: samples are captured and batches published only while
enabled; the toggle handler leaves the accumulator untouched, so disabling
mid-window retains (rather than discards) the in-flight partial batch,
which is not transmitted while disabled but is transmitted at the first
interval tick after a re-enable. -/
theorem disable_retention_semantics (s : SenderState) (hit : Option DomElement)
    (e : MouseEvent) (now : Nat) :
    (s.enabled = false →
      senderStep s (SenderEvent.move hit e now) = (s, []) ∧
      senderStep s SenderEvent.tick = (s, [])) ∧
    ((senderStep s SenderEvent.toggle).1.positions = s.positions ∧
      (senderStep s SenderEvent.toggle).2 = []) ∧
    (s.enabled = false → s.positions ≠ [] →
      (senderRun s [SenderEvent.toggle, SenderEvent.tick]).2 = [s.positions]) := by
  refine ⟨fun h => ⟨?_, ?_⟩, ⟨rfl, rfl⟩, fun h hp => ?_⟩
  · simp [senderStep, mousemoveHandler, h]
  · cases hps : s.positions <;> simp [senderStep, h, hps]
  · cases hps : s.positions with
    | nil => exact absurd hps hp
    | cons p ps => simp [senderRun, senderStep, h, hps]

/-- Witness for C4's amended theorem: from a disabled state holding one
buffered sample, a move and a tick do nothing, and re-enabling then ticking
transmits exactly the retained buffer. -/
theorem disable_retention_semantics_witness :
    senderStep sDisabled (SenderEvent.move (some elA) mev1 10) = (sDisabled, []) ∧
    (senderRun sDisabled [SenderEvent.toggle, SenderEvent.tick]).2 = [[sampleA1]] :=
  ⟨((disable_retention_semantics sDisabled (some elA) mev1 10).1 rfl).1,
   (disable_retention_semantics sDisabled (some elA) mev1 10).2.2 rfl (by decide)⟩

/-- Counterexample for C5: enable then capture three samples with no
interval tick — no batch is emitted even though three samples have
accumulated, so no sample-count ceiling triggers a flush (the code has no
`batchSizeLimit`; this falsifies the size trigger for any ceiling of at
most 3). -/
theorem no_size_trigger_cex :
    (senderRun initSender evThreeMoves).2 = [] ∧
    (senderRun initSender evThreeMoves).1.positions.length = 3 := by
  decide

/-- Amended C5: a batch is flushed only by the 100 ms interval tick — a
trace without tick events emits nothing — and a tick while enabled with a
nonempty accumulator flushes the entire accumulator as one batch; there is
no sample-count trigger. -/
theorem flush_only_on_tick (s : SenderState) (evs : List SenderEvent) :
    ((∀ ev ∈ evs, ev ≠ SenderEvent.tick) → (senderRun s evs).2 = []) ∧
    (s.enabled = true → s.positions ≠ [] →
      senderStep s SenderEvent.tick =
        ({ enabled := true, positions := [], baseTime := none }, [s.positions])) := by
  constructor
  · intro h
    induction evs generalizing s with
    | nil => rfl
    | cons ev rest ih =>
      simp only [senderRun]
      rw [senderStep_no_emit s ev (h ev (List.mem_cons_self ev rest))]
      exact ih (senderStep s ev).1 (fun x hx => h x (List.mem_cons_of_mem ev hx))
  · intro h hp
    cases hps : s.positions with
    | nil => exact absurd hps hp
    | cons p ps => simp [senderStep, h, hps]

/-- Witness for C5's amended theorem: the three-move trace emits nothing,
and a tick on an enabled state with one buffered sample flushes it. -/
theorem flush_only_on_tick_witness :
    (senderRun initSender evThreeMoves).2 = [] ∧
    senderStep { enabled := true, positions := [sampleA1], baseTime := some 10 }
        SenderEvent.tick =
      ({ enabled := true, positions := [], baseTime := none }, [[sampleA1]]) :=
  ⟨(flush_only_on_tick initSender evThreeMoves).1 (by decide),
   (flush_only_on_tick { enabled := true, positions := [sampleA1], baseTime := some 10 } []).2
     rfl (by decide)⟩

/-- Counterexample for C6: participant A's fresher batch (content captured
later) is applied first; the out-of-order batch arriving afterwards is
still applied — its sample is scheduled — rather than dropped.  The wire
format carries no `baseTimestamp` and the handler keeps no last-applied
record, so no staleness check is possible. -/
theorem out_of_order_batch_applied_cex :
    (handleUpdate true (handleUpdate true [] msgFresh 2000).1 msgStale 2100).2 =
      [{ clientId := ("A"), fireAt := 2100, sample := sampleA1 }] := by
  decide

/-- Amended C6: while enabled, every received batch is applied in receipt
order — the handler schedules exactly one update per sample of the batch
regardless of the previously tracked state, and no batch is dropped as
out-of-order (no base-timestamp comparison exists). -/
theorem every_batch_applied (cursors : List String) (cid col : String)
    (ps : List Sample) (t : Nat) :
    ((handleUpdate true cursors
        { clientId := cid, positions := some ps, color := col } t).2).length = ps.length := by
  simp [handleUpdate]

/-- Witness for C6's amended theorem: `every_batch_applied` instantiated at
the stale one-sample batch: it schedules exactly one update. -/
theorem every_batch_applied_witness :
    ((handleUpdate true [("A")]
        { clientId := ("A"), positions := some [sampleA1], color := ("#F00") } 2100).2).length =
      ([sampleA1] : List Sample).length :=
  every_batch_applied [("A")] ("A") ("#F00") [sampleA1] 2100

/-- Counterexample for C7: the `setCursorCommunication` message toggles the
flag, so issuing it on an already-disabled session enables sharing (not a
no-op), and issuing it twice on an enabled session ends enabled while
issuing it once ends disabled — twice is not the same end state as once. -/
theorem toggle_not_idempotent_cex :
    (handleToggle [] 0 { enabled := false, cursors := [] }).enabled = true ∧
    (handleToggle [] 0 (handleToggle [] 0 { enabled := true, cursors := [("A")] })).enabled = true ∧
    (handleToggle [] 0 { enabled := true, cursors := [("A")] }).enabled = false := by
  decide

/-- Amended C7: the control message is an involution on the enabled flag
rather than an idempotent disable — applying it twice restores the original
flag — and the disable transition (the message received while enabled)
yields the disabled state with every tracked cursor destroyed. -/
theorem toggle_involution (pset : List PresenceMsg) (t : Nat) (s : ClientState) :
    (handleToggle pset t (handleToggle pset t s)).enabled = s.enabled ∧
    (s.enabled = true → handleToggle pset t s = { enabled := false, cursors := [] }) := by
  constructor
  · by_cases h : s.enabled <;> simp [handleToggle, h]
  · intro h; simp [handleToggle, h]

/-- Witness for C7's amended theorem: disabling an enabled session with one
tracked cursor yields the disabled, cursor-free state. -/
theorem toggle_involution_witness :
    handleToggle [] 0 { enabled := true, cursors := [("A")] } =
      { enabled := false, cursors := [] } :=
  (toggle_involution [] 0 { enabled := true, cursors := [("A")] }).2 rfl

/-- Claim C8 (code bug): when `document.elementFromPoint` returns null (no
element at the viewport point), the `mousemove` handler reads
`null.className` and throws instead of emitting a `None` anchor with page
coordinates. -/
theorem null_element_capture_throws :
    mousemoveHandler true none { clientX := 5, clientY := 5, pageX := 5, pageY := 5 } none 7 =
      Except.error nullElementError := by
  rfl

/-- Claim C9 (code bug): on a presence snapshot whose first member has sent
no batch yet (its data has no positions), the `return` inside the
`fetchPresenceSet` loop exits the whole callback: P1's cursor is created
but P2 is never processed and gets no cursor.  The created entry is still
cleanly destroyed by the leave handler. -/
theorem snapshot_return_skips_participants :
    fetchPresenceSet [] 0 psetTwoIdle = ([("P1")], []) ∧
    ("P2") ∉ (fetchPresenceSet [] 0 psetTwoIdle).1 ∧
    handleLeave (fetchPresenceSet [] 0 psetTwoIdle).1 ("P1") = [] := by
  decide

/-- Claim C10 (confirmed): during replay, the stored selector is used only
when it matches exactly one element of the local document; with zero or
with two or more matches the cursor is positioned at the sample's absolute
page coordinates. -/
theorem unique_selector_match_playback (q : String → List Rect) (p : Sample) :
    (∀ r, p.element ≠ ("") → q p.element = [r] →
      playbackPosition q p = (r.left + p.xElement, r.top + p.yElement)) ∧
    (p.element ≠ ("") → (q p.element).length ≠ 1 → playbackPosition q p = (p.x, p.y)) := by
  constructor
  · intro r h hq
    simp [playbackPosition, h, hq]
  · intro h hl
    rcases hq : q p.element with _ | ⟨r1, _ | ⟨r2, rs⟩⟩
    · simp [playbackPosition, h, hq]
    · exact absurd (by simp [hq]) hl
    · simp [playbackPosition, h, hq]

/-- Witness for C10: a selector matching two elements falls back to the page
coordinates, while a uniquely matching selector positions relative to the
matched rect. -/
theorem unique_selector_match_playback_witness :
    playbackPosition qTwo pDup = (40, 41) ∧
    playbackPosition qOne pAnchored = (13, 24) :=
  ⟨(unique_selector_match_playback qTwo pDup).2 (by decide) (by decide),
   (unique_selector_match_playback qOne pAnchored).1 { left := 10, top := 20 }
     (by decide) (by decide)⟩

end ContentJs
